import Mathlib

/-!
Verification of the agent dispatch and response-normalization layer of
`backend/server.py`: prompt assembly, recipe extraction with deterministic
fallback, and the error shaping of the `/chat`, `/search`,
`/agents/capabilities` and `/recipes/generate` endpoints.

The agents themselves (chat, search, recipe) are external collaborators:
an agent is modelled as its capability list together with its `execute`
behaviour, and the JSON parser (`json.loads`, standard library) is a
parameter `loads` of the recipe pipeline.  Python dictionaries and JSON
values are modelled by the inductive type `Json` (objects keep insertion
order, as Python dicts do).
-/

/-- Model of a JSON-serializable Python value, as produced by `json.loads`
and consumed by the response models.  Objects are ordered key-value lists. -/
inductive Json where
  | null
  | bool (b : Bool)
  | num (n : Int)
  | str (s : String)
  | arr (xs : List Json)
  | obj (kvs : List (String × Json))

/-- A Python exception relevant to the recipe field check: `in` on a
non-container raises `TypeError`; a missing required field raises
`ValueError` (which the endpoint catches together with decode errors). -/
inductive PyErr where
  | typeError (msg : String)
  | valueError (msg : String)

/-- Model of Python `sep.join(parts)`. -/
def joinWith (sep : String) : List String → String
  | [] => ""
  | [x] => x
  | x :: y :: ys => x ++ sep ++ joinWith sep (y :: ys)

/-- Drops leading whitespace characters. -/
def pyStripLeft : List Char → List Char
  | [] => []
  | c :: cs => if c.isWhitespace then pyStripLeft cs else c :: cs

/-- Model of Python `str.strip()` (whitespace on both ends). -/
def pyStrip (s : String) : String :=
  ⟨(pyStripLeft ((pyStripLeft s.data).reverse)).reverse⟩

/-- One step of `pyTitle`: the Boolean says whether the previous character
was alphabetic. -/
def pyTitleAux : List Char → Bool → List Char
  | [], _ => []
  | c :: cs, prevAlpha =>
    (if c.isAlpha then (if prevAlpha then c.toLower else c.toUpper) else c)
      :: pyTitleAux cs c.isAlpha

/-- Model of Python `str.title()`: the first letter of each word is
uppercased, the following letters lowercased. -/
def pyTitle (s : String) : String :=
  ⟨pyTitleAux s.data false⟩

/-- Boolean list-prefix test used by the substring check. -/
def leadsWith : List Char → List Char → Bool
  | [], _ => true
  | _ :: _, [] => false
  | a :: as, b :: bs => a == b && leadsWith as bs

/-- Model of Python `needle in hay` for strings (substring containment). -/
def containsSub (needle : List Char) : List Char → Bool
  | [] => needle.isEmpty
  | c :: cs => leadsWith needle (c :: cs) || containsSub needle cs

/-- First index at which `p` holds, starting the count at `i`. -/
def findIdxAux (p : Char → Bool) : List Char → Nat → Option Nat
  | [], _ => none
  | c :: cs, i => if p c then some i else findIdxAux p cs (i + 1)

/-- Model of `re.search(r'\x7b.*\x7d', content, re.DOTALL)`: the greedy match
runs from the first opening brace to the last closing brace, provided the
latter comes after the former; otherwise there is no match. -/
def braceSpan (cs : List Char) : Option (List Char) :=
  match findIdxAux (fun c => c == '{') cs 0 with
  | none => none
  | some i =>
    match findIdxAux (fun c => c == '}') cs.reverse 0 with
    | none => none
    | some r =>
      let j := cs.length - 1 - r
      if i < j then some ((cs.drop i).take (j - i + 1)) else none

/-- The candidate text handed to `json.loads`: the stripped content, replaced
by its brace span when one exists (server.py lines 275-282). -/
def candidateOf (content : String) : String :=
  let c := pyStrip content
  match braceSpan c.data with
  | some span => ⟨span⟩
  | none => c

/-- Result of an agent `execute` call: success flag, content text, metadata
mapping and optional error (the `AgentResult` consumed by the endpoints). -/
structure AgentResult where
  success : Bool
  content : String
  metadata : List (String × Json)
  error : Option String

/-- An agent as this layer sees it: a static capability list and an
`execute(prompt, use_tools)` behaviour.  `Except.error` models `execute`
raising; `Except.ok` models a returned `AgentResult`. -/
structure Agent where
  capabilities : List String
  execute : String → Bool → Except String AgentResult

/-- `ChatRequest` of server.py (context is irrelevant to dispatch and kept
as opaque metadata). -/
structure ChatRequest where
  message : String
  agent_type : String
  context : Option (List (String × Json))

/-- `ChatResponse` of server.py; `metadata` defaults to the empty dict when
the constructor is called without it. -/
structure ChatResponse where
  success : Bool
  response : String
  agent_type : String
  capabilities : List String
  metadata : List (String × Json)
  error : Option String

/-- `SearchRequest` of server.py. -/
structure SearchRequest where
  query : String
  max_results : Int

/-- `SearchResponse` of server.py. -/
structure SearchResponse where
  success : Bool
  query : String
  summary : String
  search_results : Option (List (String × Json))
  sources_count : Int
  error : Option String

/-- `RecipeRequest` of server.py.  The three text fields and the
restrictions list are optional exactly as in the pydantic model. -/
structure RecipeRequest where
  ingredients : List String
  dietary_restrictions : Option (List String)
  cuisine_type : Option String
  meal_type : Option String
  cooking_time : Option String

/-- `RecipeResponse` of server.py: the recipe is an untyped JSON dict. -/
structure RecipeResponse where
  success : Bool
  recipe : Json
  error : Option String

/-- Python truthiness of an `Optional[str]`: `None` and `""` are falsy. -/
def optTruthy : Option String → Bool
  | some s => !(s == "")
  | none => false

/-- Python truthiness of an `Optional[List[str]]`: `None` and `[]` are falsy. -/
def listTruthy : Option (List String) → Bool
  | some (_ :: _) => true
  | _ => false

/-- Model of Python `opt or default` for an optional string (falsy values,
`None` and `""`, give the default). -/
def pyOrStr (o : Option String) (d : String) : String :=
  match o with
  | some s => if s == "" then d else s
  | none => d

/-- Model of the Python membership test `k in v` as the field check uses it:
key lookup on objects, element equality on arrays, substring on strings, and
a `TypeError` on the non-container values null, booleans and numbers. -/
def pyContains : Json → String → Except String Bool
  | Json.obj kvs, k => Except.ok (kvs.any (fun p => p.1 == k))
  | Json.arr xs, k =>
      Except.ok (xs.any (fun x => match x with | Json.str s => s == k | _ => false))
  | Json.str s, k => Except.ok (containsSub k.data s.data)
  | Json.num _, _ => Except.error "argument of type int is not iterable"
  | Json.bool _, _ => Except.error "argument of type bool is not iterable"
  | Json.null, _ => Except.error "argument of type NoneType is not iterable"

/-- The required top-level recipe fields (server.py line 288). -/
def requiredFields : List String :=
  ["name", "description", "prep_time", "cook_time", "servings", "difficulty",
   "ingredients", "instructions"]

/-- The validation loop of server.py lines 289-291: for each field in order,
`field not in recipe_data` raises `ValueError`; the membership test itself
raises `TypeError` when the parsed value is not a container. -/
def checkRequired (j : Json) : List String → Except PyErr Unit
  | [] => Except.ok ()
  | k :: ks =>
    match pyContains j k with
    | Except.error m => Except.error (PyErr.typeError m)
    | Except.ok true => checkRequired j ks
    | Except.ok false => Except.error (PyErr.valueError ("Missing required field: " ++ k))

/-- One fallback ingredient entry (server.py line 304). -/
def fallbackIngredient (ing : String) : Json :=
  Json.obj [("item", Json.str ing), ("amount", Json.str "1-2"), ("unit", Json.str "portions")]

/-- The fallback ingredients: one entry per requested ingredient, in order. -/
def fallbackIngredients (req : RecipeRequest) : List Json :=
  req.ingredients.map fallbackIngredient

/-- The fixed five-step fallback instructions (server.py lines 306-312). -/
def fallbackInstructions (req : RecipeRequest) : List Json :=
  [ Json.obj [("step", Json.num 1),
      ("instruction", Json.str ("Prepare all ingredients: " ++ joinWith ", " req.ingredients))],
    Json.obj [("step", Json.num 2),
      ("instruction", Json.str "Heat oil in a large pan over medium heat")],
    Json.obj [("step", Json.num 3),
      ("instruction", Json.str "Add ingredients and cook according to recipe requirements")],
    Json.obj [("step", Json.num 4),
      ("instruction", Json.str "Season with salt, pepper, and herbs to taste")],
    Json.obj [("step", Json.num 5),
      ("instruction", Json.str "Serve hot and enjoy!")] ]

/-- The fallback recipe name (server.py line 297): title-cased cuisine (or
nothing), title-cased meal type (or "Dish"), "with", the first two
ingredients, the whole stripped. -/
def fallbackName (req : RecipeRequest) : String :=
  pyStrip ((if optTruthy req.cuisine_type then pyTitle (req.cuisine_type.getD "") else "")
    ++ " " ++ (if optTruthy req.meal_type then pyTitle (req.meal_type.getD "") else "Dish")
    ++ " with " ++ joinWith ", " (req.ingredients.take 2))

/-- The fallback description (server.py line 298). -/
def fallbackDescription (req : RecipeRequest) : String :=
  "A delicious recipe using " ++ joinWith ", " req.ingredients ++ " with "
    ++ (if listTruthy req.dietary_restrictions
        then joinWith ", " (req.dietary_restrictions.getD [])
        else "no dietary restrictions")

/-- The deterministic fallback recipe synthesized from the original request
(server.py lines 296-323). -/
def fallbackData (req : RecipeRequest) : Json :=
  Json.obj [
    ("name", Json.str (fallbackName req)),
    ("description", Json.str (fallbackDescription req)),
    ("prep_time", Json.str "15 minutes"),
    ("cook_time", Json.str (pyOrStr req.cooking_time "30 minutes")),
    ("servings", Json.str "4"),
    ("difficulty", Json.str "Medium"),
    ("ingredients", Json.arr (fallbackIngredients req)),
    ("instructions", Json.arr (fallbackInstructions req)),
    ("tips", Json.arr [Json.str "Adjust seasoning to taste",
       Json.str "Feel free to substitute ingredients based on availability"]),
    ("nutrition", Json.obj [
       ("calories", Json.str "300-400 per serving"),
       ("protein", Json.str "15-25g"),
       ("carbs", Json.str "20-40g"),
       ("fat", Json.str "10-20g")]) ]

/-- The literal JSON-shaped template appended to the recipe prompt
(server.py lines 241-263), including its leading newline. -/
def recipeTemplate : String :=
  "\n\x7b\n  \"name\": \"Recipe Name\",\n  \"description\": \"Brief description\",\n  \"prep_time\": \"X minutes\",\n  \"cook_time\": \"X minutes\",\n  \"servings\": \"X\",\n  \"difficulty\": \"Easy/Medium/Hard\",\n  \"ingredients\": [\n    \x7b\"item\": \"ingredient name\", \"amount\": \"quantity\", \"unit\": \"unit\"\x7d\n  ],\n  \"instructions\": [\n    \x7b\"step\": 1, \"instruction\": \"First step\"\x7d,\n    \x7b\"step\": 2, \"instruction\": \"Second step\"\x7d\n  ],\n  \"tips\": [\"helpful tip 1\", \"helpful tip 2\"],\n  \"nutrition\": \x7b\n    \"calories\": \"approximate calories per serving\",\n    \"protein\": \"protein content\",\n    \"carbs\": \"carbohydrate content\",\n    \"fat\": \"fat content\"\n  \x7d\n\x7d"

/-- The recipe prompt assembly of server.py lines 225-265: a first line
naming the ingredients, then one appended line per truthy optional field in
source order, then the literal template, newline-joined. -/
def recipePrompt (req : RecipeRequest) : String :=
  let ingredients_list := joinWith ", " req.ingredients
  let p0 := ["Create a detailed recipe using these ingredients: " ++ ingredients_list]
  let p1 := if listTruthy req.dietary_restrictions
            then p0 ++ ["Dietary restrictions: " ++ joinWith ", " (req.dietary_restrictions.getD [])]
            else p0
  let p2 := if optTruthy req.cuisine_type
            then p1 ++ ["Cuisine type: " ++ req.cuisine_type.getD ""]
            else p1
  let p3 := if optTruthy req.meal_type
            then p2 ++ ["Meal type: " ++ req.meal_type.getD ""]
            else p2
  let p4 := if optTruthy req.cooking_time
            then p3 ++ ["Cooking time preference: " ++ req.cooking_time.getD ""]
            else p3
  joinWith "\n" (p4 ++ [recipeTemplate])

/-- The inner try of server.py lines 284-323 applied to the agent content:
decode failure and a missing required field are caught and produce the
fallback recipe; a `TypeError` from the membership test is not caught there
and escapes to the endpoint's outer handler.  The JSON parser `loads` is the
standard library collaborator. -/
def recipeDataOf (loads : String → Except Unit Json) (req : RecipeRequest)
    (content : String) : Except String Json :=
  match loads (candidateOf content) with
  | Except.error _ => Except.ok (fallbackData req)
  | Except.ok j =>
    match checkRequired j requiredFields with
    | Except.ok () => Except.ok j
    | Except.error (PyErr.valueError _) => Except.ok (fallbackData req)
    | Except.error (PyErr.typeError m) => Except.error m

/-- Holds exactly when the inner parse attempt fails in a way the
`except (json.JSONDecodeError, ValueError)` clause catches, which is when
the fallback synthesis activates. -/
def caughtParseFailure (loads : String → Except Unit Json) (content : String) : Bool :=
  match loads (candidateOf content) with
  | Except.error _ => true
  | Except.ok j =>
    match checkRequired j requiredFields with
    | Except.ok () => false
    | Except.error (PyErr.valueError _) => true
    | Except.error (PyErr.typeError _) => false

/-- State the recipe endpoint sees: the memoized `recipe_agent` global and
the `RecipeAgent` constructor (which may raise). -/
structure RecipeEnv where
  recipeAgent : Option Agent
  mkRecipeAgent : Except String Agent

/-- Lazy initialization of the recipe agent (server.py lines 221-222). -/
def resolveRecipeAgent (env : RecipeEnv) : Except String Agent :=
  match env.recipeAgent with
  | some a => Except.ok a
  | none => env.mkRecipeAgent

/-- The body of the recipe endpoint's outer try (server.py lines 219-334):
resolve the agent, execute it on the built prompt, and on agent success run
the extraction; `Except.error` is an exception reaching the outer handler. -/
def generateRecipeBody (loads : String → Except Unit Json) (env : RecipeEnv)
    (req : RecipeRequest) : Except String RecipeResponse :=
  match resolveRecipeAgent env with
  | Except.error e => Except.error e
  | Except.ok agent =>
    match agent.execute (recipePrompt req) false with
    | Except.error e => Except.error e
    | Except.ok result =>
      if result.success then
        match recipeDataOf loads req result.content with
        | Except.ok data => Except.ok ⟨true, data, none⟩
        | Except.error m => Except.error m
      else
        Except.ok ⟨false, Json.obj [], result.error⟩

/-- The `/recipes/generate` endpoint: the outer `except Exception` converts
any escaped exception into a failure response with an empty recipe
(server.py lines 336-342). -/
def generate_recipe (loads : String → Except Unit Json) (env : RecipeEnv)
    (req : RecipeRequest) : RecipeResponse :=
  match generateRecipeBody loads env req with
  | Except.ok r => r
  | Except.error e => ⟨false, Json.obj [], some e⟩

/-- State the search endpoint sees: the memoized `search_agent` global and
the `SearchAgent` constructor. -/
structure SearchEnv where
  searchAgent : Option Agent
  mkSearchAgent : Except String Agent

/-- Lazy initialization of the search agent (server.py lines 159-160). -/
def resolveSearchAgent (env : SearchEnv) : Except String Agent :=
  match env.searchAgent with
  | some a => Except.ok a
  | none => env.mkSearchAgent

/-- The search prompt template of server.py line 163. -/
def searchPrompt (query : String) : String :=
  "Search for information about: " ++ query
    ++ ". Provide a comprehensive summary with key findings."

/-- Last-occurrence association lookup, the observable behaviour of a Python
dict built by insertion. -/
def dictGet (m : List (String × Json)) (k : String) : Option Json :=
  ((m.filter (fun p => p.1 == k)).getLast?).map (fun p => p.2)

/-- Field lookup on a JSON value: objects only. -/
def jLookup (j : Json) (k : String) : Option Json :=
  match j with
  | Json.obj kvs => dictGet kvs k
  | _ => none

/-- `metadata.get("tools_used", 0)` of server.py line 172, coerced to the
response's integer field. -/
def metadataToolsUsed (m : List (String × Json)) : Int :=
  match dictGet m "tools_used" with
  | some (Json.num n) => n
  | _ => 0

/-- The body of the search endpoint's try (server.py lines 157-181). -/
def searchBody (env : SearchEnv) (req : SearchRequest) : Except String SearchResponse :=
  match resolveSearchAgent env with
  | Except.error e => Except.error e
  | Except.ok agent =>
    match agent.execute (searchPrompt req.query) true with
    | Except.error e => Except.error e
    | Except.ok result =>
      if result.success then
        Except.ok ⟨true, req.query, result.content, some result.metadata,
          metadataToolsUsed result.metadata, none⟩
      else
        Except.ok ⟨false, req.query, "", none, 0, result.error⟩

/-- The `/search` endpoint with its outer `except Exception` handler
(server.py lines 183-191). -/
def search_and_summarize (env : SearchEnv) (req : SearchRequest) : SearchResponse :=
  match searchBody env req with
  | Except.ok r => r
  | Except.error e => ⟨false, req.query, "", none, 0, some e⟩

/-- State the chat endpoint sees: the two memoized agent globals and the two
constructors. -/
structure ChatEnv where
  searchAgent : Option Agent
  chatAgent : Option Agent
  mkSearchAgent : Except String Agent
  mkChatAgent : Except String Agent

/-- The conditional agent initialization of server.py lines 117-121: the
search agent is constructed only for `agent_type == "search"`, the chat
agent only for `agent_type == "chat"` (an `elif`), each only when its global
is still `None`.  Returns the updated pair (search slot, chat slot). -/
def initAgents (env : ChatEnv) (req : ChatRequest) :
    Except String (Option Agent × Option Agent) :=
  if req.agent_type == "search" && env.searchAgent.isNone then
    match env.mkSearchAgent with
    | Except.error e => Except.error e
    | Except.ok a => Except.ok (some a, env.chatAgent)
  else if req.agent_type == "chat" && env.chatAgent.isNone then
    match env.mkChatAgent with
    | Except.error e => Except.error e
    | Except.ok a => Except.ok (env.searchAgent, some a)
  else
    Except.ok (env.searchAgent, env.chatAgent)

/-- The body of the chat endpoint's try (server.py lines 115-139): select
the search slot for `agent_type == "search"` and the chat slot otherwise,
raise when the selected slot is empty, execute, and shape the response.
The response's `agent_type` is `request.agent_type`, line 135. -/
def chatBody (env : ChatEnv) (req : ChatRequest) : Except String ChatResponse :=
  match initAgents env req with
  | Except.error e => Except.error e
  | Except.ok slots =>
    match (if req.agent_type == "search" then slots.1 else slots.2) with
    | none => Except.error "500: Failed to initialize agent"
    | some a =>
      match a.execute req.message false with
      | Except.error e => Except.error e
      | Except.ok res =>
        Except.ok ⟨res.success, res.content, req.agent_type, a.capabilities,
          res.metadata, res.error⟩

/-- The `/chat` endpoint with its `except Exception` handler (server.py
lines 141-149): success false, empty response, echoed `agent_type`, empty
capabilities, default empty metadata, and the exception text as error. -/
def chat_with_agent (env : ChatEnv) (req : ChatRequest) : ChatResponse :=
  match chatBody env req with
  | Except.ok r => r
  | Except.error e => ⟨false, "", req.agent_type, [], [], some e⟩

/-- State the capabilities endpoint sees: the two eager constructors it
calls (server.py lines 199-200); it never touches the memoized globals. -/
structure CapEnv where
  mkSearchAgent : Except String Agent
  mkChatAgent : Except String Agent

/-- The JSON body the capabilities endpoint returns. -/
structure CapBody where
  success : Bool
  capabilities : Option (List String × List String)
  error : Option String

/-- Outcome of an endpoint call at the protocol level: a JSON body, or an
exception escaping the handler (which the framework turns into HTTP 500). -/
inductive CapOutcome where
  | body (b : CapBody)
  | raised (e : String)

/-- Whether the outcome is an escaped exception. -/
def isRaisedOutcome : CapOutcome → Bool
  | CapOutcome.raised _ => true
  | CapOutcome.body _ => false

/-- The dict-literal construction of server.py lines 198-201: the search
agent is constructed first, then the chat agent; either constructor may
raise. -/
def capTry (env : CapEnv) : Except String (List String × List String) :=
  match env.mkSearchAgent with
  | Except.error e => Except.error e
  | Except.ok s =>
    match env.mkChatAgent with
    | Except.error e => Except.error e
    | Except.ok c => Except.ok (s.capabilities, c.capabilities)

/-- The `/agents/capabilities` endpoint (server.py lines 194-211): the
try/except converts every exception into a success=false body, so no call
ever yields a `raised` outcome. -/
def get_agent_capabilities (env : CapEnv) : CapOutcome :=
  match capTry env with
  | Except.ok caps => CapOutcome.body ⟨true, some caps, none⟩
  | Except.error e => CapOutcome.body ⟨false, none, some e⟩

/-! ## Helper lemmas -/

/-- When every required field passes the membership test on an object, the
validation loop completes without raising. -/
theorem checkRequired_all_present (kvs : List (String × Json)) (l : List String)
    (h : l.all (fun k => kvs.any (fun p => p.1 == k)) = true) :
    checkRequired (Json.obj kvs) l = Except.ok () := by
  induction l with
  | nil => rfl
  | cons k ks ih =>
    rw [List.all_cons, Bool.and_eq_true] at h
    simp only [checkRequired, pyContains, h.1]
    exact ih h.2

/-- When the candidate parses to an object holding every required field, the
inner try returns that object unchanged. -/
theorem recipeDataOf_passthrough (loads : String → Except Unit Json)
    (req : RecipeRequest) (content : String) (kvs : List (String × Json))
    (hp : loads (candidateOf content) = Except.ok (Json.obj kvs))
    (hk : requiredFields.all (fun k => kvs.any (fun p => p.1 == k)) = true) :
    recipeDataOf loads req content = Except.ok (Json.obj kvs) := by
  have hc := checkRequired_all_present kvs requiredFields hk
  unfold recipeDataOf
  rw [hp]
  simp [hc]

/-- When the parse attempt fails in a caught way, the inner try returns the
fallback recipe. -/
theorem recipeDataOf_fallback (loads : String → Except Unit Json)
    (req : RecipeRequest) (content : String)
    (h : caughtParseFailure loads content = true) :
    recipeDataOf loads req content = Except.ok (fallbackData req) := by
  unfold caughtParseFailure at h
  unfold recipeDataOf
  cases hl : loads (candidateOf content) with
  | error e => rfl
  | ok j =>
    rw [hl] at h
    cases hc : checkRequired j requiredFields with
    | ok u =>
      cases u
      simp [hc] at h
    | error pe =>
      cases pe with
      | valueError m => simp [hc]
      | typeError m => simp [hc] at h

/-! ## Recipe endpoint claims -/

/-- C2: for every recipe request where the agent succeeds and the candidate
text (trimmed content, narrowed to the first-to-last brace span when one
exists) parses to an object holding all eight required keys, the endpoint
returns success with exactly that object as the recipe, unchanged. -/
theorem recipe_passthrough (loads : String → Except Unit Json) (env : RecipeEnv)
    (req : RecipeRequest) (a : Agent) (res : AgentResult) (kvs : List (String × Json))
    (ha : resolveRecipeAgent env = Except.ok a)
    (hx : a.execute (recipePrompt req) false = Except.ok res)
    (hs : res.success = true)
    (hp : loads (candidateOf res.content) = Except.ok (Json.obj kvs))
    (hk : requiredFields.all (fun k => kvs.any (fun p => p.1 == k)) = true) :
    generate_recipe loads env req = ⟨true, Json.obj kvs, none⟩ := by
  have hd := recipeDataOf_passthrough loads req res.content kvs hp hk
  unfold generate_recipe generateRecipeBody
  simp only [ha]
  simp only [hx]
  simp [hs, hd]

def kvsC2 : List (String × Json) :=
  [("name", Json.str "Thai Chicken Rice"), ("description", Json.str "A dish"),
   ("prep_time", Json.str "10m"), ("cook_time", Json.str "20m"),
   ("servings", Json.str "2"), ("difficulty", Json.str "Easy"),
   ("ingredients", Json.arr []), ("instructions", Json.arr [])]

/-- Models the standard-library parser on the concrete agent output used in
the passthrough witness: it yields the eight-key recipe object. -/
def loadsC2 : String → Except Unit Json := fun _ => Except.ok (Json.obj kvsC2)

def agentC2 : Agent := ⟨["recipe"], fun _ _ => Except.ok ⟨true, "output", [], none⟩⟩

def envC2 : RecipeEnv := ⟨some agentC2, Except.error "unused"⟩

def reqC2 : RecipeRequest := ⟨["chicken", "rice"], some [], some "thai", none, none⟩

theorem recipe_passthrough_witness :
    generate_recipe loadsC2 envC2 reqC2 = ⟨true, Json.obj kvsC2, none⟩ :=
  recipe_passthrough loadsC2 envC2 reqC2 agentC2 ⟨true, "output", [], none⟩ kvsC2
    rfl rfl rfl rfl rfl

/-- C8: when the recipe agent's execute reports failure, the endpoint
returns success=false with an empty recipe and the agent's error verbatim;
no fallback recipe is synthesized on this path (the result holds for every
parser `loads`, so the parse step is never consulted). -/
theorem recipe_agent_failure (loads : String → Except Unit Json) (env : RecipeEnv)
    (req : RecipeRequest) (a : Agent) (res : AgentResult)
    (ha : resolveRecipeAgent env = Except.ok a)
    (hx : a.execute (recipePrompt req) false = Except.ok res)
    (hs : res.success = false) :
    generate_recipe loads env req = ⟨false, Json.obj [], res.error⟩ := by
  unfold generate_recipe generateRecipeBody
  simp only [ha]
  simp only [hx]
  simp [hs]

/-- A parser that always reports a decode failure; used where the parse
outcome is irrelevant or a decode error is wanted. -/
def loadsFail : String → Except Unit Json := fun _ => Except.error ()

def agentC8 : Agent :=
  ⟨["recipe"], fun _ _ => Except.ok ⟨false, "", [], some "model overloaded"⟩⟩

def envC8 : RecipeEnv := ⟨some agentC8, Except.error "unused"⟩

def reqC8 : RecipeRequest := ⟨["egg"], some [], none, none, none⟩

theorem recipe_agent_failure_witness :
    generate_recipe loadsFail envC8 reqC8 =
      ⟨false, Json.obj [], some "model overloaded"⟩ :=
  recipe_agent_failure loadsFail envC8 reqC8 agentC8
    ⟨false, "", [], some "model overloaded"⟩ rfl rfl rfl

/-- C5 (amended): when the recipe agent succeeds but the parse attempt fails
in a way the endpoint catches (a JSON decode error, or a missing-key
`ValueError` from the field check), the returned recipe is the fallback
record, and its ingredients field has exactly one entry per requested
ingredient, in request order, each with amount "1-2" and unit "portions". -/
theorem recipe_fallback_ingredients (loads : String → Except Unit Json)
    (env : RecipeEnv) (req : RecipeRequest) (a : Agent) (res : AgentResult)
    (ha : resolveRecipeAgent env = Except.ok a)
    (hx : a.execute (recipePrompt req) false = Except.ok res)
    (hs : res.success = true)
    (hf : caughtParseFailure loads res.content = true) :
    generate_recipe loads env req = ⟨true, fallbackData req, none⟩ ∧
    jLookup (fallbackData req) "ingredients" =
      some (Json.arr (req.ingredients.map fallbackIngredient)) := by
  refine ⟨?_, rfl⟩
  have hd := recipeDataOf_fallback loads req res.content hf
  unfold generate_recipe generateRecipeBody
  simp only [ha]
  simp only [hx]
  simp [hs, hd]

def agentC5fb : Agent :=
  ⟨["recipe"], fun _ _ => Except.ok ⟨true, "I cannot help with that.", [], none⟩⟩

def envC5fb : RecipeEnv := ⟨some agentC5fb, Except.error "unused"⟩

def reqC5fb : RecipeRequest := ⟨["tofu", "broccoli"], some ["vegan"], none, none, none⟩

theorem recipe_fallback_ingredients_witness :
    generate_recipe loadsFail envC5fb reqC5fb = ⟨true, fallbackData reqC5fb, none⟩ ∧
    jLookup (fallbackData reqC5fb) "ingredients" =
      some (Json.arr (reqC5fb.ingredients.map fallbackIngredient)) :=
  recipe_fallback_ingredients loadsFail envC5fb reqC5fb agentC5fb
    ⟨true, "I cannot help with that.", [], none⟩ rfl rfl rfl rfl

/-- Models the standard-library parser on the one candidate text arising in
the counterexample: Python `json.loads` of the text `null` yields `None`. -/
def loadsNullModel : String → Except Unit Json := fun s =>
  if s == "null" then Except.ok Json.null else Except.error ()

def agentC5 : Agent := ⟨["recipe"], fun _ _ => Except.ok ⟨true, "null", [], none⟩⟩

def envC5 : RecipeEnv := ⟨some agentC5, Except.error "unused"⟩

def reqC5 : RecipeRequest := ⟨["beef", "noodles"], some [], none, none, none⟩

/-- C5 counterexample: the agent succeeds with content `"null"`, a text
lacking every required key, yet the response carries no fallback
ingredients at all — the membership test raises `TypeError`, which skips the
fallback and reaches the outer handler, so the recipe is empty and the
request fails. -/
theorem recipe_fallback_ingredients_counterexample :
    generate_recipe loadsNullModel envC5 reqC5 =
      ⟨false, Json.obj [], some "argument of type NoneType is not iterable"⟩ ∧
    jLookup (generate_recipe loadsNullModel envC5 reqC5).recipe "ingredients" = none :=
  ⟨rfl, rfl⟩

/-- C6: whenever the fallback synthesis activates (agent success and a
caught parse failure), the recipe's instructions are the fixed fallback
steps: exactly five entries whose step numbers are 1, 2, 3, 4, 5. -/
theorem recipe_fallback_instructions (loads : String → Except Unit Json)
    (env : RecipeEnv) (req : RecipeRequest) (a : Agent) (res : AgentResult)
    (ha : resolveRecipeAgent env = Except.ok a)
    (hx : a.execute (recipePrompt req) false = Except.ok res)
    (hs : res.success = true)
    (hf : caughtParseFailure loads res.content = true) :
    generate_recipe loads env req = ⟨true, fallbackData req, none⟩ ∧
    jLookup (fallbackData req) "instructions" =
      some (Json.arr (fallbackInstructions req)) ∧
    (fallbackInstructions req).length = 5 ∧
    (fallbackInstructions req).map (fun j => jLookup j "step") =
      [some (Json.num 1), some (Json.num 2), some (Json.num 3),
       some (Json.num 4), some (Json.num 5)] := by
  refine ⟨?_, rfl, rfl, rfl⟩
  have hd := recipeDataOf_fallback loads req res.content hf
  unfold generate_recipe generateRecipeBody
  simp only [ha]
  simp only [hx]
  simp [hs, hd]

def agentC6 : Agent :=
  ⟨["recipe"], fun _ _ => Except.ok ⟨true, "no recipe today", [], none⟩⟩

def envC6 : RecipeEnv := ⟨some agentC6, Except.error "unused"⟩

def reqC6 : RecipeRequest := ⟨["pasta"], some [], some "italian", none, none⟩

theorem recipe_fallback_instructions_witness :
    generate_recipe loadsFail envC6 reqC6 = ⟨true, fallbackData reqC6, none⟩ ∧
    jLookup (fallbackData reqC6) "instructions" =
      some (Json.arr (fallbackInstructions reqC6)) ∧
    (fallbackInstructions reqC6).length = 5 ∧
    (fallbackInstructions reqC6).map (fun j => jLookup j "step") =
      [some (Json.num 1), some (Json.num 2), some (Json.num 3),
       some (Json.num 4), some (Json.num 5)] :=
  recipe_fallback_instructions loadsFail envC6 reqC6 agentC6
    ⟨true, "no recipe today", [], none⟩ rfl rfl rfl rfl

/-- Models the standard-library parser on the one candidate text arising in
the C1 demonstration: Python `json.loads` of the text `42` yields the
integer 42. -/
def loadsIntModel : String → Except Unit Json := fun s =>
  if s == "42" then Except.ok (Json.num 42) else Except.error ()

def agentC1 : Agent := ⟨["recipe"], fun _ _ => Except.ok ⟨true, "42", [], none⟩⟩

def envC1 : RecipeEnv := ⟨some agentC1, Except.error "unused"⟩

def reqC1 : RecipeRequest := ⟨["chicken"], some [], none, none, none⟩

/-- C1 failing input, evaluated: the recipe agent succeeds with the brace-free
content `"42"`, whose candidate parses as the JSON number 42; the field
check's membership test then raises `TypeError`, which the
`except (json.JSONDecodeError, ValueError)` clause does not absorb, so the
fallback never activates and the endpoint answers success=false with an
empty recipe — contradicting the claim that extraction never fails. -/
theorem recipe_extraction_typeerror :
    generate_recipe loadsIntModel envC1 reqC1 =
      ⟨false, Json.obj [], some "argument of type int is not iterable"⟩ ∧
    caughtParseFailure loadsIntModel "42" = false :=
  ⟨rfl, rfl⟩

/-! ## Chat endpoint claims -/

/-- C3 (amended): for an unrecognized `agent_type`, dispatch selects the chat
slot; when a memoized chat agent exists the request is handled as a normal
chat request through it, and the response's `agent_type` echoes the
request's original value verbatim (it is not rewritten to "chat"). -/
theorem chat_unrecognized_fallback (env : ChatEnv) (req : ChatRequest)
    (a : Agent) (res : AgentResult)
    (h1 : (req.agent_type == "chat") = false)
    (h2 : (req.agent_type == "search") = false)
    (h3 : env.chatAgent = some a)
    (hx : a.execute req.message false = Except.ok res) :
    chat_with_agent env req =
      ⟨res.success, res.content, req.agent_type, a.capabilities,
       res.metadata, res.error⟩ := by
  unfold chat_with_agent chatBody initAgents
  simp only [h1, h2, h3, Bool.false_and]
  simp only [if_neg Bool.false_ne_true]
  simp [hx]

def chatAgentC3 : Agent :=
  ⟨["conversation", "general knowledge"],
   fun _ _ => Except.ok ⟨true, "hello there", [], none⟩⟩

def envC3 : ChatEnv :=
  ⟨none, some chatAgentC3, Except.error "unused", Except.error "unused"⟩

def reqC3 : ChatRequest := ⟨"hi", "turbo", none⟩

/-- C3 counterexample: a request with `agent_type = "turbo"` is handled
successfully by the chat agent, yet the response's `agent_type` is the
literal "turbo", not "chat". -/
theorem chat_agent_type_counterexample :
    (chat_with_agent envC3 reqC3).agent_type = "turbo" ∧
    ¬ (chat_with_agent envC3 reqC3).agent_type = "chat" ∧
    (chat_with_agent envC3 reqC3).success = true ∧
    (chat_with_agent envC3 reqC3).response = "hello there" :=
  ⟨rfl, by decide, rfl, rfl⟩

def chatAgentC3w : Agent := ⟨["conversation"], fun _ _ => Except.ok ⟨true, "sure", [], none⟩⟩

def envC3w : ChatEnv :=
  ⟨none, some chatAgentC3w, Except.error "unused", Except.error "unused"⟩

def reqC3w : ChatRequest := ⟨"hello", "assistant", none⟩

theorem chat_unrecognized_fallback_witness :
    chat_with_agent envC3w reqC3w =
      ⟨true, "sure", "assistant", ["conversation"], [], none⟩ :=
  chat_unrecognized_fallback envC3w reqC3w chatAgentC3w
    ⟨true, "sure", [], none⟩ rfl rfl rfl rfl

/-- C10: whatever exception escapes the chat dispatch (agent construction,
empty slot, or execute raising), the endpoint converts it into a response
with success=false, empty response text, echoed `agent_type`, empty
capabilities, empty metadata, and the exception's text as the error. -/
theorem chat_exception_shape (env : ChatEnv) (req : ChatRequest) (e : String)
    (h : chatBody env req = Except.error e) :
    chat_with_agent env req = ⟨false, "", req.agent_type, [], [], some e⟩ := by
  unfold chat_with_agent
  rw [h]

def envC10 : ChatEnv :=
  ⟨none, none, Except.error "unused", Except.error "missing EMERGENT_LLM_KEY"⟩

def reqC10 : ChatRequest := ⟨"hello", "chat", none⟩

theorem chat_exception_shape_witness :
    chat_with_agent envC10 reqC10 =
      ⟨false, "", "chat", [], [], some "missing EMERGENT_LLM_KEY"⟩ :=
  chat_exception_shape envC10 reqC10 "missing EMERGENT_LLM_KEY" rfl

/-! ## Search endpoint claim -/

/-- C9: when the search agent's execute reports failure with an error text,
the response has success=false, an empty summary, no search results,
sources_count 0, and the agent's error verbatim. -/
theorem search_failure_shape (env : SearchEnv) (req : SearchRequest)
    (a : Agent) (res : AgentResult) (err : String)
    (ha : resolveSearchAgent env = Except.ok a)
    (hx : a.execute (searchPrompt req.query) true = Except.ok res)
    (hs : res.success = false)
    (he : res.error = some err) :
    search_and_summarize env req = ⟨false, req.query, "", none, 0, some err⟩ := by
  unfold search_and_summarize searchBody
  simp only [ha]
  simp only [hx]
  simp [hs, he]

def searchAgentC9 : Agent :=
  ⟨["web search"], fun _ _ => Except.ok ⟨false, "", [], some "rate limited"⟩⟩

def envC9 : SearchEnv := ⟨some searchAgentC9, Except.error "unused"⟩

def reqC9 : SearchRequest := ⟨"rust ownership", 5⟩

theorem search_failure_shape_witness :
    search_and_summarize envC9 reqC9 =
      ⟨false, "rust ownership", "", none, 0, some "rate limited"⟩ :=
  search_failure_shape envC9 reqC9 searchAgentC9
    ⟨false, "", [], some "rate limited"⟩ "rate limited" rfl rfl rfl rfl

/-! ## Capabilities endpoint claim -/

/-- C4 (amended): when agent construction raises inside the capabilities
endpoint, the try/except converts the failure into a success=false response
body carrying the exception text — it does not escape as a protocol-level
error. -/
theorem capabilities_failure_body (env : CapEnv) (e : String)
    (h : capTry env = Except.error e) :
    get_agent_capabilities env = CapOutcome.body ⟨false, none, some e⟩ := by
  unfold get_agent_capabilities
  rw [h]

def capEnvC4 : CapEnv := ⟨Except.error "missing config", Except.ok ⟨["chat"], fun _ _ => Except.ok ⟨true, "", [], none⟩⟩⟩

/-- C4 counterexample: with the search-agent constructor raising
"missing config", the endpoint returns a success=false JSON body, and the
outcome is not an escaped exception (no HTTP 500 propagation). -/
theorem capabilities_counterexample :
    get_agent_capabilities capEnvC4 =
      CapOutcome.body ⟨false, none, some "missing config"⟩ ∧
    isRaisedOutcome (get_agent_capabilities capEnvC4) = false :=
  ⟨rfl, rfl⟩

def capEnvC4w : CapEnv := ⟨Except.error "no api key", Except.ok ⟨["chat"], fun _ _ => Except.ok ⟨true, "", [], none⟩⟩⟩

theorem capabilities_failure_body_witness :
    get_agent_capabilities capEnvC4w =
      CapOutcome.body ⟨false, none, some "no api key"⟩ :=
  capabilities_failure_body capEnvC4w "no api key" rfl

/-! ## Prompt assembly claim -/

/-- C7 (amended): the recipe prompt is the newline-join of, in this fixed
order, the ingredients line; a dietary-restrictions line when the list is
truthy (present and non-empty); one line each for cuisine type, meal type
and cooking time when the field is truthy (present and non-empty, Python
truthiness); and finally the literal recipe template. -/
theorem recipe_prompt_structure (req : RecipeRequest) :
    recipePrompt req = joinWith "\n"
      (["Create a detailed recipe using these ingredients: "
          ++ joinWith ", " req.ingredients]
        ++ (if listTruthy req.dietary_restrictions
            then ["Dietary restrictions: "
                    ++ joinWith ", " (req.dietary_restrictions.getD [])]
            else [])
        ++ (if optTruthy req.cuisine_type
            then ["Cuisine type: " ++ req.cuisine_type.getD ""] else [])
        ++ (if optTruthy req.meal_type
            then ["Meal type: " ++ req.meal_type.getD ""] else [])
        ++ (if optTruthy req.cooking_time
            then ["Cooking time preference: " ++ req.cooking_time.getD ""] else [])
        ++ [recipeTemplate]) := by
  unfold recipePrompt
  cases hd : listTruthy req.dietary_restrictions <;>
    cases hc : optTruthy req.cuisine_type <;>
      cases hm : optTruthy req.meal_type <;>
        cases ht : optTruthy req.cooking_time <;>
          simp [hd, hc, hm, ht]

def reqC7 : RecipeRequest := ⟨["rice"], some [], some "", none, none⟩

/-- C7 counterexample: with `cuisine_type` present but equal to the empty
string, the claim's reading ("only when present") predicts a cuisine line,
yet the built prompt skips it: the source guards each line with Python
truthiness, under which an empty string counts as absent. -/
theorem recipe_prompt_counterexample :
    recipePrompt reqC7 = joinWith "\n"
      ["Create a detailed recipe using these ingredients: rice", recipeTemplate] ∧
    ¬ recipePrompt reqC7 = joinWith "\n"
      ["Create a detailed recipe using these ingredients: rice",
       "Cuisine type: ", recipeTemplate] :=
  ⟨rfl, by decide⟩
